import Mathlib

/-!
Verification of the SkyPilot provisioning failover engine
(`sky/backends/cloud_vm_ray_backend.py`): the blocked-resource set, the
two failover error classifiers (text-based V1 and structured V2), the
provision retry loop (`RetryingVmProvisioner._retry_zones` together with
`_yield_zones`) and the versioned cluster handle
(`CloudVmRayResourceHandle.__setstate__`).

Pure Python functions are translated to Lean functions; the in-place
mutation of the `blocked_resources` set is made explicit by returning the
new set; Python exceptions become `Except` values; the object `__dict__`
used by pickling is an association list of string keys.
-/

/-- Substring containment, the model of the Python `pat in s` test on
strings: some suffix of `s` starts with `pat`. -/
def strContains (s pat : String) : Bool :=
  s.toList.tails.any (fun t => pat.toList.isPrefixOf t)

/-- Split a character list at every occurrence of `sep`, keeping empty
pieces, as Python `str.split(sep)` does. -/
def splitCharsOn (sep : Char) : List Char → List (List Char)
  | [] => [[]]
  | c :: cs =>
    let r := splitCharsOn sep cs
    if c = sep then [] :: r
    else
      match r with
      | [] => [[c]]
      | h :: t => (c :: h) :: t

/-- Python `s.split(chr(10))`: the newline-separated pieces of `s`. -/
def splitLines (s : String) : List String :=
  (splitCharsOn (Char.ofNat 10) s.toList).map (fun l => String.mk l)

/-- The whitespace characters Python `str.strip()` removes. -/
def isPySpace (c : Char) : Bool :=
  c = ' ' ∨ c = Char.ofNat 9 ∨ c = Char.ofNat 10 ∨ c = Char.ofNat 11 ∨
    c = Char.ofNat 12 ∨ c = Char.ofNat 13

/-- Python `s.strip()`: drop leading and trailing whitespace. -/
def pyStrip (s : String) : String :=
  String.mk (((s.toList.dropWhile isPySpace).reverse.dropWhile isPySpace).reverse)

/-- Modelled from the spec: the cloud/region/zone projection of
`sky.resources.Resources` (the class is outside this repository's files).
A pattern may have `region`/`zone` unset, meaning all regions/zones of
the cloud; `cloud` is unset only in degenerate patterns.  Equality is
structural, as the spec requires for blocking comparisons. -/
structure Resources where
  cloud : Option String
  region : Option String
  zone : Option String
deriving DecidableEq, Repr

/-- Modelled from the spec: `Resources.copy(...)` returns a new value with
the given fields replaced (outer `none` = keyword argument not passed,
`some none` = field explicitly set to Python `None`). -/
def Resources.copy (r : Resources) (newRegion newZone : Option (Option String)) : Resources :=
  { cloud := r.cloud, region := newRegion.getD r.region, zone := newZone.getD r.zone }

/-- Modelled from the spec: the `should_be_blocked_by` subsumption relation
(the method lives outside this repository's files): each field of the
blocker that is set must match, an unset field acts as a wildcard. -/
def Resources.should_be_blocked_by (r blocker : Resources) : Bool :=
  (blocker.cloud == none || blocker.cloud == r.cloud) &&
  (blocker.region == none || blocker.region == r.region) &&
  (blocker.zone == none || blocker.zone == r.zone)

/-- Whether the set of patterns `blocked` blocks the concrete spec `r`:
some entry subsumes it.  This is the effective blocking behaviour the
retry loop consults. -/
def blocks (blocked : List Resources) (r : Resources) : Bool :=
  blocked.any (fun b => r.should_be_blocked_by b)

/-- `_add_to_blocked_resources` (cloud_vm_ray_backend.py:740-747): skip the
insert when some existing entry already subsumes `resources`. The Python
set is modelled as a list; `add` appends. -/
def _add_to_blocked_resources (blocked : List Resources) (resources : Resources) :
    List Resources :=
  if blocked.any (fun r => resources.should_be_blocked_by r) then blocked
  else blocked ++ [resources]

/-- `sky.utils.status_lib.ClusterStatus` (the values used by the engine). -/
inductive ClusterStatus where
  | INIT
  | UP
  | STOPPED
deriving DecidableEq, Repr

/-- `GangSchedulingStatus` (cloud_vm_ray_backend.py:733-737). -/
inductive GangSchedulingStatus where
  | CLUSTER_READY
  | GANG_FAILED
  | HEAD_FAILED
deriving DecidableEq, Repr

namespace FailoverCloudErrorHandlerV1

/-- `FailoverCloudErrorHandlerV1._handle_errors` (lines 758-790): collect the
stripped stdout/stderr lines recognised by `is_error_str_known`; if none
are found the function raises a RuntimeError (the rsync-specific one when
stderr mentions a missing rsync). -/
def _handle_errors (stdout stderr : String) (is_error_str_known : String → Bool) :
    Except String (List String) :=
  let stdout_splits := splitLines stdout
  let stderr_splits := splitLines stderr
  let errors := ((stdout_splits ++ stderr_splits).map pyStrip).filter is_error_str_known
  if errors ≠ [] then .ok errors
  else if strContains stderr "rsync: command not found" then
    .error "RuntimeError: rsync not found in the specified image"
  else
    .error "RuntimeError: Errors occurred during provision; check logs above."

/-- `FailoverCloudErrorHandlerV1._ibm_handler` (lines 792-810): keep lines
whose stripped text holds ERR or PANIC, then block every attempted zone.
Iterating a Python `None` zone list raises a TypeError. -/
def _ibm_handler (blocked : List Resources) (launchable_resources : Resources)
    (zones : Option (List String)) (stdout stderr : String) :
    Except String (List Resources) :=
  match _handle_errors stdout stderr
      (fun x => strContains (pyStrip x) "ERR" || strContains (pyStrip x) "PANIC") with
  | .error m => .error m
  | .ok _errors =>
    match zones with
    | none => .error "TypeError: NoneType object is not iterable"
    | some zs =>
      .ok (zs.foldl
        (fun b z => _add_to_blocked_resources b
          (launchable_resources.copy none (some (some z)))) blocked)

/-- `FailoverCloudErrorHandlerV1.update_blocklist_on_error` (lines 812-874).
`stdout = none` is the gang-scheduling-failure call (head node up, workers
failed): it blocks every attempted zone and reports
`definitely_no_nodes_launched = false`.  Otherwise dispatch goes through
`getattr(V1, f..._handler)` with no default, so any cloud other than ibm
raises an AttributeError.  The returned Bool is
`definitely_no_nodes_launched`. -/
def update_blocklist_on_error (blocked : List Resources)
    (launchable_resources : Resources) (regionName : String)
    (zones : Option (List String)) (stdout stderr : Option String) :
    Except String (List Resources × Bool) :=
  if launchable_resources.region ≠ some regionName then
    .error "AssertionError: launchable_resources.region == region.name"
  else
    match stdout, stderr with
    | none, some _ => .error "AssertionError: stderr is None"
    | none, none =>
      let blocked' := match zones with
        | none => blocked
        | some zs => zs.foldl
            (fun b z => _add_to_blocked_resources b
              (launchable_resources.copy none (some (some z)))) blocked
      .ok (blocked', false)
    | some _, none => .error "AssertionError: stdout is not None and stderr is not None"
    | some out, some errout =>
      if launchable_resources.cloud ≠ some "ibm" then
        .error "AttributeError: FailoverCloudErrorHandlerV1 has no handler for this cloud"
      else
        match _ibm_handler blocked launchable_resources zones out errout with
        | .error m => .error m
        | .ok blocked' =>
          let splits := splitLines out ++ splitLines errout
          let head_node_launch_may_have_been_requested :=
            splits.any (fun line => strContains line "Acquiring an up-to-date head node")
          .ok (blocked', !head_node_launch_may_have_been_requested)

end FailoverCloudErrorHandlerV1

/-- A structured `{code, message}` entry of a `ProvisionerError` (a code is a
string or, for the GCP TPU API, a small integer). -/
inductive ErrCode where
  | s (v : String)
  | n (v : Nat)
deriving DecidableEq, Repr

/-- One structured error entry carried by a `ProvisionerError`. -/
structure StructuredError where
  code : ErrCode
  message : String
deriving DecidableEq, Repr

/-- The exception handed to the V2 classifier.  `msg` models `str(err)`;
`provisionerError` carries the structured `errors` list, and
`invalidCloudCredentials` models `exceptions.InvalidCloudCredentials`. -/
inductive PyErr where
  | provisionerError (msg : String) (errors : List StructuredError)
  | invalidCloudCredentials (msg : String)
  | generic (msg : String)
deriving DecidableEq, Repr

/-- `str(err)` of the exception. -/
def PyErr.toStr : PyErr → String
  | .provisionerError m _ => m
  | .invalidCloudCredentials m => m
  | .generic m => m

namespace FailoverCloudErrorHandlerV2

/-- `FailoverCloudErrorHandlerV2._default_handler` (lines 1110-1128): with no
zone list block the attempted region (zone cleared), otherwise block every
attempted zone. -/
def _default_handler (blocked : List Resources) (launchable_resources : Resources)
    (zones : Option (List String)) : List Resources :=
  match zones with
  | none => _add_to_blocked_resources blocked (launchable_resources.copy none (some none))
  | some zs => zs.foldl
      (fun b z => _add_to_blocked_resources b
        (launchable_resources.copy none (some (some z)))) blocked

/-- The pattern `_azure_handler` blocks (every branch of lines 885-906 adds
exactly one): a read-only subscription or an authentication failure blocks
the whole cloud, anything else the attempted region. -/
def azureScopePattern (launchable_resources : Resources) (err : PyErr) : Resources :=
  if strContains err.toStr "(ReadOnlyDisabledSubscription)" then
    ⟨some "azure", none, none⟩
  else if strContains err.toStr "ClientAuthenticationError" then
    ⟨some "azure", none, none⟩
  else
    launchable_resources.copy none (some none)

/-- `FailoverCloudErrorHandlerV2._azure_handler` (lines 885-906). -/
def _azure_handler (blocked : List Resources) (launchable_resources : Resources)
    (err : PyErr) : List Resources :=
  _add_to_blocked_resources blocked (azureScopePattern launchable_resources err)

/-- One entry of the GCP error-code table (`_gcp_handler`, lines 925-1061):
the branch chain, in source order, deciding which pattern to block for a
single structured error (`none` = the branch inserts nothing, which
happens only for a `QuotaFailure` whose message names neither a region nor
a zone).  Every other branch performs exactly one
`_add_to_blocked_resources`, applied by `gcpBlockOne` below. -/
def gcpScopePattern (launchable_resources : Resources)
    (regionName : String) (zoneName : String) (e : StructuredError) : Option Resources :=
  let lr := launchable_resources
  match e.code with
  | .n c =>
    if c = 3 ∨ c = 8 ∨ c = 9 then
      some (lr.copy none (some (some zoneName)))
    else if strContains e.message "Requested disk size cannot be smaller than the image size" then
      some (lr.copy (some none) (some none))
    else if strContains e.message "Policy update access denied." then
      some (lr.copy (some none) (some none))
    else if strContains e.message "is not found or access is unauthorized" then
      some (lr.copy none (some (some zoneName)))
    else
      some (lr.copy none (some (some zoneName)))
  | .s c =>
    if c = "QUOTA_EXCEEDED" ∨ c = "quotaExceeded" then
      if strContains e.message "'GPUS_ALL_REGIONS' exceeded" then
        some (lr.copy (some none) (some none))
      else
        some (lr.copy none (some none))
    else if c = "ZONE_RESOURCE_POOL_EXHAUSTED" ∨
        c = "ZONE_RESOURCE_POOL_EXHAUSTED_WITH_DETAILS" ∨
        c = "UNSUPPORTED_OPERATION" ∨ c = "insufficientCapacity" then
      some (lr.copy none (some (some zoneName)))
    else if c = "RESOURCE_NOT_READY" then
      some (lr.copy none (some (some zoneName)))
    else if c = "RESOURCE_OPERATION_RATE_EXCEEDED" then
      some (lr.copy none (some (some zoneName)))
    else if c = "RESOURCE_NOT_FOUND" then
      some (lr.copy none (some (some zoneName)))
    else if c = "VPC_NOT_FOUND" then
      some (lr.copy (some none) (some none))
    else if c = "SUBNET_NOT_FOUND_FOR_VPC" then
      some (lr.copy (some (some regionName)) (some none))
    else if c = "type.googleapis.com/google.rpc.QuotaFailure" then
      if strContains e.message "in region" then
        some (lr.copy (some (some regionName)) (some none))
      else if strContains e.message "in zone" then
        some (lr.copy none (some (some zoneName)))
      else
        none
    else if strContains e.message "Requested disk size cannot be smaller than the image size" then
      some (lr.copy (some none) (some none))
    else if strContains e.message "Policy update access denied." ∨ c = "IAM_PERMISSION_DENIED" then
      some (lr.copy (some none) (some none))
    else if strContains e.message "is not found or access is unauthorized" then
      some (lr.copy none (some (some zoneName)))
    else
      some (lr.copy none (some (some zoneName)))

/-- Processing of one structured error by `_gcp_handler`'s loop body. -/
def gcpBlockOne (blocked : List Resources) (launchable_resources : Resources)
    (regionName : String) (zoneName : String) (e : StructuredError) : List Resources :=
  match gcpScopePattern launchable_resources regionName zoneName e with
  | some r => _add_to_blocked_resources blocked r
  | none => blocked

/-- `FailoverCloudErrorHandlerV2._gcp_handler` (lines 908-1061): asserts the
attempted zone list is a singleton; an unparsed (non-`ProvisionerError`)
exception blocks that zone; a `ProvisionerError` walks its structured
errors through the code table. -/
def _gcp_handler (blocked : List Resources) (launchable_resources : Resources)
    (regionName : String) (zones : Option (List String)) (err : PyErr) :
    Except String (List Resources) :=
  match zones with
  | some [zone] =>
    match err with
    | .provisionerError _ errors =>
      .ok (errors.foldl
        (fun b e => gcpBlockOne b launchable_resources regionName zone e) blocked)
    | _ =>
      .ok (_add_to_blocked_resources blocked
        (launchable_resources.copy none (some (some zone))))
  | _ => .error "AssertionError: zones and len(zones) == 1"

/-- `FailoverCloudErrorHandlerV2._lambda_handler` (lines 1063-1078): when the
error text lists regions with available capacity, block every catalog
region not mentioned; otherwise fall back to the default handler.  The
catalog (`sky.catalog.regions`) is outside this repository's files and is
passed in as `lambdaCatalogRegions`. -/
def _lambda_handler (lambdaCatalogRegions : List String) (blocked : List Resources)
    (launchable_resources : Resources) (zones : Option (List String))
    (err : PyErr) : List Resources :=
  let output := err.toStr
  if strContains output "Regions with capacity available:" then
    lambdaCatalogRegions.foldl
      (fun b r =>
        if strContains output r then b
        else _add_to_blocked_resources b
          (launchable_resources.copy (some (some r)) (some none))) blocked
  else
    _default_handler blocked launchable_resources zones

/-- `FailoverCloudErrorHandlerV2._aws_handler` (lines 1080-1093): expired
credentials block the whole cloud, anything else goes to the default
handler. -/
def _aws_handler (blocked : List Resources) (launchable_resources : Resources)
    (zones : Option (List String)) (err : PyErr) : List Resources :=
  match err with
  | .invalidCloudCredentials _ =>
    _add_to_blocked_resources blocked ⟨some "aws", none, none⟩
  | _ => _default_handler blocked launchable_resources zones

/-- `FailoverCloudErrorHandlerV2._scp_handler` (lines 1095-1108). -/
def _scp_handler (blocked : List Resources) (launchable_resources : Resources)
    (zones : Option (List String)) (err : PyErr) : List Resources :=
  match err with
  | .invalidCloudCredentials _ =>
    _add_to_blocked_resources blocked ⟨some "scp", none, none⟩
  | _ => _default_handler blocked launchable_resources zones

/-- `FailoverCloudErrorHandlerV2.update_blocklist_on_error` (lines
1130-1141): `getattr` with `_default_handler` as the default, so a cloud
without a specific handler falls back to the generic rule.  Only the GCP
handler can fail (its singleton-zone assertion). -/
def update_blocklist_on_error (lambdaCatalogRegions : List String)
    (blocked : List Resources) (launchable_resources : Resources)
    (regionName : String) (zones : Option (List String)) (err : PyErr) :
    Except String (List Resources) :=
  match launchable_resources.cloud with
  | some "azure" => .ok (_azure_handler blocked launchable_resources err)
  | some "gcp" => _gcp_handler blocked launchable_resources regionName zones err
  | some "lambda" =>
    .ok (_lambda_handler lambdaCatalogRegions blocked launchable_resources zones err)
  | some "aws" => .ok (_aws_handler blocked launchable_resources zones err)
  | some "scp" => .ok (_scp_handler blocked launchable_resources zones err)
  | _ => .ok (_default_handler blocked launchable_resources zones)

end FailoverCloudErrorHandlerV2

/-- Outcome of `backend_utils.write_cluster_config` as seen by the retry
loop (lines 1426-1467): success, a catalog issue (`ResourcesUnavailableError`,
skip the candidate), invalid credentials or an invalid user config (both
block the whole cloud and re-raise). -/
inductive WriteConfigResult where
  | ok
  | catalogIssue
  | invalidCreds
  | invalidConfigs
deriving DecidableEq, Repr

/-- What `_gang_schedule_ray_up` reports for one provisioning attempt
(lines 1620-1624): the gang-scheduling status plus the raw stdout/stderr
of the launch tool. -/
structure AttemptResult where
  status : GangSchedulingStatus
  stdout : String
  stderr : String
deriving DecidableEq, Repr

/-- How one `_retry_zones` call ends: a successful return, a raised
`ResourcesUnavailableError` carrying its `no_failover` flag, or some other
exception (an assertion or classifier failure) propagating out. -/
inductive LoopOutcome where
  | success
  | raisedRUE (noFailover : Bool)
  | raisedOther (msg : String)
deriving DecidableEq, Repr

/-- The zone filter at the top of the `_retry_zones` loop body (lines
1403-1416): drop every zone whose concrete (cloud, region, zone) spec is
subsumed by some entry of the blocked set. -/
def filterBlockedZones (blocked : List Resources) (to_provision : Resources)
    (regionName : String) (zones : List String) : List String :=
  zones.filter (fun z =>
    !(blocks blocked (to_provision.copy (some (some regionName)) (some (some z)))))

/-- What the loop body does with one yielded candidate before any cloud
call: `none` = all candidate zones are blocked, skip to the next candidate
(line 1413-1415); `some inv` = proceed with the filtered zones (`inv =
none` models a cloud without zones, whose yield is Python `None`). -/
def candidateInvocation (blocked : List Resources) (to_provision : Resources)
    (regionName : String) (candidate : Option (List String)) :
    Option (Option (List String)) :=
  match candidate with
  | none => some none
  | some zones =>
    let remaining := filterBlockedZones blocked to_provision regionName zones
    if remaining = [] then none else some (some remaining)

/-- The body of the `for zones in self._yield_zones(...)` loop of
`_retry_zones` (lines 1393-1722) on the legacy (ray-up) path, for the
non-dryrun, non-config-hash-match case: filter blocked zones; write the
cluster config (a catalog issue skips the candidate, bad credentials or
configs block the cloud and raise); run the gang-scheduled launch; on
`CLUSTER_READY` return, otherwise classify through
`FailoverCloudErrorHandlerV1` (stdout/stderr for `HEAD_FAILED`, `None` for
`GANG_FAILED`) and continue with the grown blocked set.  Returns the
provisioner invocations made (the filtered zone list of each), the final
blocked set, and `none` while the candidate list runs out without a
terminal outcome. -/
def retryZonesLoop (to_provision : Resources) (regionName : String)
    (writeConfig : Option (List String) → WriteConfigResult)
    (attempt : Option (List String) → AttemptResult)
    (blocked : List Resources) :
    List (Option (List String)) →
    List (Option (List String)) × List Resources × Option LoopOutcome
  | [] => ([], blocked, none)
  | candidate :: rest =>
    match candidateInvocation blocked to_provision regionName candidate with
    | none => retryZonesLoop to_provision regionName writeConfig attempt blocked rest
    | some inv =>
      match writeConfig inv with
      | .catalogIssue => retryZonesLoop to_provision regionName writeConfig attempt blocked rest
      | .invalidCreds =>
        ([], _add_to_blocked_resources blocked (to_provision.copy (some none) (some none)),
          some (.raisedRUE false))
      | .invalidConfigs =>
        ([], _add_to_blocked_resources blocked (to_provision.copy (some none) (some none)),
          some (.raisedRUE false))
      | .ok =>
        let res := attempt inv
        if res.status = .CLUSTER_READY then ([inv], blocked, some .success)
        else
          let cls := if res.status = .HEAD_FAILED then
              FailoverCloudErrorHandlerV1.update_blocklist_on_error blocked to_provision
                regionName inv (some res.stdout) (some res.stderr)
            else
              FailoverCloudErrorHandlerV1.update_blocklist_on_error blocked to_provision
                regionName inv none none
          match cls with
          | .error m => ([inv], blocked, some (.raisedOther m))
          | .ok (blocked', _definitely_no_nodes_launched) =>
            let r := retryZonesLoop to_provision regionName writeConfig attempt blocked' rest
            (inv :: r.1, r.2.1, r.2.2)

/-- The observable result of one `_retry_zones` call. -/
structure RunResult where
  invocations : List (Option (List String))
  blockedAfter : List Resources
  outcome : LoopOutcome
deriving DecidableEq, Repr

/-- `_retry_zones` (lines 1318-1747) together with `_yield_zones` (lines
1190-1316), for the legacy path:

* the quota pre-check (lines 1364-1391): a definitive `False` raises a
  `ResourcesUnavailableError` (default `no_failover = False`) before any
  provisioner call; a quota-check exception is treated as quota available;
* for an existing cluster (`prev_cluster_status` set) the generator yields
  only the previously recorded zones and, when resumed after that failed
  attempt, raises `no_failover = True` if the cluster was ever UP, else
  (asserting the previous status is INIT) a retryable error
  (lines 1245-1290);
* for a fresh cluster the candidates come from the cloud's zone iterator,
  and exhausting them raises with `no_failover = prev_cluster_ever_up`
  (lines 1744-1747). -/
def _retry_zones_run (to_provision : Resources) (regionName : String)
    (prev_cluster_status : Option ClusterStatus) (prev_cluster_ever_up : Bool)
    (quota : Except String Bool) (prevZones : Option (List String))
    (freshCandidates : List (Option (List String)))
    (writeConfig : Option (List String) → WriteConfigResult)
    (attempt : Option (List String) → AttemptResult)
    (blocked : List Resources) : RunResult :=
  let need_provision := match quota with
    | .ok b => b
    | .error _ => true
  if need_provision = false then ⟨[], blocked, .raisedRUE false⟩
  else
    let candidates := match prev_cluster_status with
      | some _ => [prevZones]
      | none => freshCandidates
    let r := retryZonesLoop to_provision regionName writeConfig attempt blocked candidates
    match r.2.2 with
    | some o => ⟨r.1, r.2.1, o⟩
    | none =>
      match prev_cluster_status with
      | some st =>
        if prev_cluster_ever_up then ⟨r.1, r.2.1, .raisedRUE true⟩
        else if st = .INIT then ⟨r.1, r.2.1, .raisedRUE false⟩
        else ⟨r.1, r.2.1, .raisedOther "AssertionError: prev_cluster_status == INIT"⟩
      | none => ⟨r.1, r.2.1, .raisedRUE prev_cluster_ever_up⟩

/-- The externally visible actions of one loop-body iteration of
`_retry_zones` on the SKYPILOT-provisioner path (lines 1426-1610), in
program order. `persistHandleInit` is the
`global_user_state.add_or_update_cluster(..., ready=False)` write that
stores the freshly built `CloudVmRayResourceHandle` with status INIT
(lines 1495-1522). -/
inductive Event where
  | writeClusterConfig
  | persistHandleInit
  | setOwnerIdentity
  | bulkProvision
  | postTeardownCleanup
  | classifyV2
deriving DecidableEq, Repr

/-- How the `provisioner.bulk_provision` call ends (lines 1565-1610):
success, one of the two re-raised exception types, or a generic failure
that is torn down and classified. -/
inductive BulkProvisionOutcome where
  | ok
  | stopFailover
  | inconsistentHA
  | fail
deriving DecidableEq, Repr

/-- The event trace of one candidate's loop-body iteration on the
SKYPILOT-provisioner path: config write (whose failures leave the body),
the config-hash and dryrun early returns (lines 1469-1478), then handle
construction, the INIT persist, the owner-identity write, and only then
`bulk_provision`; a failed provision is torn down and classified. -/
def attemptTrace (write : WriteConfigResult) (hashMatches dryrun : Bool)
    (prov : BulkProvisionOutcome) : List Event :=
  match write with
  | .catalogIssue => [.writeClusterConfig]
  | .invalidCreds => [.writeClusterConfig]
  | .invalidConfigs => [.writeClusterConfig]
  | .ok =>
    if hashMatches then [.writeClusterConfig]
    else if dryrun then [.writeClusterConfig]
    else
      [.writeClusterConfig, .persistHandleInit, .setOwnerIdentity, .bulkProvision] ++
      match prov with
      | .ok => []
      | .stopFailover => []
      | .inconsistentHA => []
      | .fail => [.postTeardownCleanup, .classifyV2]

/-- A value stored in a pickled `CloudVmRayResourceHandle.__dict__`:
Python `None`, strings, integers, the launched `Resources`, the IP-pair
cache, the SSH-port cache, or an (opaque) provider cluster-info cache. -/
inductive PyVal where
  | none
  | str (s : String)
  | num (n : Nat)
  | res (r : Resources)
  | ips (l : List (String × String))
  | ports (l : List Nat)
  | info (n : Nat)
deriving DecidableEq, Repr

/-- A Python object `__dict__`: insertion-ordered string-keyed mapping. -/
abbrev Dict := List (String × PyVal)

/-- `d[k]` lookup. -/
def dictGet? (d : Dict) (k : String) : Option PyVal :=
  match d with
  | [] => Option.none
  | (k', v) :: rest => if k' = k then some v else dictGet? rest k

/-- Delete a key (the removal part of `d.pop(k)`). -/
def dictRemove (d : Dict) (k : String) : Dict :=
  d.filter (fun kv => kv.1 ≠ k)

/-- `d[k] = v`: replace in place when the key exists, else append. -/
def dictSet (d : Dict) (k : String) (v : PyVal) : Dict :=
  if d.any (fun kv => kv.1 = k) then
    d.map (fun kv => if kv.1 = k then (k, v) else kv)
  else d ++ [(k, v)]

/-- `base.update(d)` of Python dicts. -/
def dictUpdate (base d : Dict) : Dict :=
  d.foldl (fun acc kv => dictSet acc kv.1 kv.2) base

/-- The version-2 migration: rename the `cluster_yaml` key to
`_cluster_yaml` (a missing key is a KeyError). -/
def setstateStep2 (version : Int) (state : Dict) : Except String Dict :=
  if version < 2 then
    match dictGet? state "cluster_yaml" with
    | Option.none => Except.error "KeyError: cluster_yaml"
    | some v => Except.ok (dictSet (dictRemove state "cluster_yaml") "_cluster_yaml" v)
  else Except.ok state

/-- The version-6 migration: default `cluster_name_on_cloud` to the
display name. -/
def setstateStep6 (version : Int) (state : Dict) : Except String Dict :=
  if version < 6 then
    match dictGet? state "cluster_name" with
    | Option.none => Except.error "KeyError: cluster_name"
    | some v => Except.ok (dictSet state "cluster_name_on_cloud" v)
  else Except.ok state

/-- The version-9 migration: point a Kubernetes cluster's launched
resources to the context recorded in its yaml. -/
def setstateStep9 (k8sContext : String) (version : Int) (state : Dict) :
    Except String Dict :=
  if version < 9 then
    match dictGet? state "launched_resources" with
    | some (PyVal.res r) =>
      if r.cloud = some "kubernetes" then
        match dictGet? state "_cluster_yaml" with
        | some (PyVal.str _) =>
          Except.ok (dictSet state "launched_resources"
            (PyVal.res (r.copy (some (some k8sContext)) Option.none)))
        | _ => Except.error "TypeError or KeyError: _cluster_yaml"
      else Except.ok state
    | _ => Except.error "KeyError: launched_resources"
  else Except.ok state

/-- The version-10 migration: a yaml reference whose file no longer exists
becomes an intentional `None`. -/
def setstateStep10 (yamlExists : String → Bool) (version : Int) (state : Dict) :
    Except String Dict :=
  if version < 10 then
    match dictGet? state "_cluster_yaml" with
    | some (PyVal.str y) =>
      Except.ok (if yamlExists y then state else dictSet state "_cluster_yaml" PyVal.none)
    | some PyVal.none => Except.ok state
    | _ => Except.error "KeyError: _cluster_yaml"
  else Except.ok state

/-- `CloudVmRayResourceHandle.__setstate__` (lines 2634-2708) as a pure
function on the pickled `__dict__`.  Environment effects are parameters:
`yamlExists` is the `os.path.exists` probe of the version-10 migration,
`k8sContext` the Kubernetes context of the version-9 migration, and
`fetchedIps`/`fetchedPorts`/`fetchedInfo` what the post-update
`update_cluster_ips` / `update_ssh_ports` / `_update_cluster_info` network
calls would store (`none` = the call failed with `FetchClusterInfoError`,
which versions 3 and 8 swallow).  A `KeyError` of a genuinely malformed
state is an `Except.error`. -/
def setstate (yamlExists : String → Bool) (k8sContext : String)
    (fetchedIps : Option PyVal) (fetchedPorts : PyVal) (fetchedInfo : Option PyVal)
    (state0 : Dict) : Except String Dict :=
  let version : Int :=
    match dictGet? state0 "_version" with
    | some (.num n) => (n : Int)
    | _ => -1
  let state := dictRemove state0 "_version"
  let state := if version = -1 then dictRemove state "cluster_region" else state
  match setstateStep2 version state with
  | Except.error m => Except.error m
  | Except.ok state =>
    let head_ip := if version < 3 then (dictGet? state "head_ip").getD PyVal.none
      else PyVal.none
    let state := if version < 3 then
        dictSet (dictRemove state "head_ip") "stable_internal_external_ips" PyVal.none
      else state
    let state := if version < 4 then dictSet state "stable_ssh_ports" PyVal.none else state
    let state := if version < 5 then dictSet state "docker_user" PyVal.none else state
    match setstateStep6 version state with
    | Except.error m => Except.error m
    | Except.ok state =>
      match setstateStep9 k8sContext version state with
      | Except.error m => Except.error m
      | Except.ok state =>
        match setstateStep10 yamlExists version state with
        | Except.error m => Except.error m
        | Except.ok state =>
          let base : Dict := if version < 8 then
              [("_version", PyVal.num 10), ("cached_cluster_info", PyVal.none)]
            else [("_version", PyVal.num 10)]
          let final := dictUpdate base state
          let final := if version < 3 ∧ head_ip ≠ PyVal.none then
              match fetchedIps with
              | some v => dictSet final "stable_internal_external_ips" v
              | Option.none => final
            else final
          let final := if version < 4 then dictSet final "stable_ssh_ports" fetchedPorts
            else final
          let final := if version < 8 then
              match fetchedInfo with
              | some v => dictSet final "cached_cluster_info" v
              | Option.none => final
            else final
          Except.ok final

/-- The `__dict__` a `CloudVmRayResourceHandle` pickled at schema version
`ver < 10` holds: always the cluster name, the yaml reference, the
launched node count and resources; the per-version fields exactly when the
version introduced them (before version 2 the yaml key is the old
`cluster_yaml` name, before version 3 a `head_ip` instead of the stable IP
cache; very old handles carry no `_version` and a legacy
`cluster_region`). -/
def mkOldState (ver : Int) (c cnoc y : String) (n : Nat) (r : Resources)
    (headIp ipsV portsV docker infoV : PyVal) : Dict :=
  (if 0 ≤ ver then [("_version", PyVal.num ver.toNat)]
    else [("cluster_region", PyVal.str "legacy-region")]) ++
  [("cluster_name", PyVal.str c)] ++
  (if ver < 2 then [("cluster_yaml", PyVal.str y)] else [("_cluster_yaml", PyVal.str y)]) ++
  (if ver < 3 then [("head_ip", headIp)]
    else [("stable_internal_external_ips", ipsV)]) ++
  (if 4 ≤ ver then [("stable_ssh_ports", portsV)] else []) ++
  (if 5 ≤ ver then [("docker_user", docker)] else []) ++
  (if 6 ≤ ver then [("cluster_name_on_cloud", PyVal.str cnoc)] else []) ++
  (if 8 ≤ ver then [("cached_cluster_info", infoV)] else []) ++
  [("launched_nodes", PyVal.num n), ("launched_resources", PyVal.res r)]

/-- The `__dict__` produced by `CloudVmRayResourceHandle.__init__` at
schema version 10 (lines 2220-2250), in attribute-assignment order (the
home-directory prefix replacement on the yaml path is an
environment-specific normalisation and is left to the caller). -/
def initDict (c cnoc : String) (y : Option String) (n : Nat) (r : Resources)
    (ipsV portsV infoV : PyVal) : Dict :=
  [("_version", PyVal.num 10), ("cluster_name", PyVal.str c),
   ("cluster_name_on_cloud", PyVal.str cnoc),
   ("_cluster_yaml", match y with | some s => PyVal.str s | Option.none => PyVal.none),
   ("stable_internal_external_ips", ipsV), ("stable_ssh_ports", portsV),
   ("cached_cluster_info", infoV), ("launched_nodes", PyVal.num n),
   ("launched_resources", PyVal.res r), ("docker_user", PyVal.none)]

/-- `e.isOk` for the migration result. -/
def exceptIsOk (e : Except String Dict) : Bool :=
  match e with
  | .ok _ => true
  | .error _ => false

/-- Field lookup through a migration result (`none` when it failed). -/
def okGet (e : Except String Dict) (k : String) : Option PyVal :=
  match e with
  | .ok d => dictGet? d k
  | .error _ => Option.none

/-- One blocked-set mutation of a provisioning session: a direct
`_add_to_blocked_resources` call by the retry engine, or a classification
by either failover handler (a classifier that raises leaves the set as it
was, since both variants raise before their first insert). -/
inductive BlockStep where
  | add (r : Resources)
  | v1 (lr : Resources) (regionName : String) (zones : Option (List String))
      (stdout stderr : Option String)
  | v2 (catalog : List String) (lr : Resources) (regionName : String)
      (zones : Option (List String)) (err : PyErr)

/-- Apply one session step to the blocked set. -/
def applyBlockStep (blocked : List Resources) : BlockStep → List Resources
  | .add r => _add_to_blocked_resources blocked r
  | .v1 lr rn zs o e =>
    match FailoverCloudErrorHandlerV1.update_blocklist_on_error blocked lr rn zs o e with
    | .ok (b', _) => b'
    | .error _ => blocked
  | .v2 cat lr rn zs err =>
    match FailoverCloudErrorHandlerV2.update_blocklist_on_error cat blocked lr rn zs err with
    | .ok b' => b'
    | .error _ => blocked

/-- Apply a whole session (a sequence of classification and retry steps). -/
def applyBlockSteps (blocked : List Resources) (steps : List BlockStep) : List Resources :=
  steps.foldl applyBlockStep blocked

/-! ### Helper lemmas -/

instance {ε α : Type} [DecidableEq ε] [DecidableEq α] : DecidableEq (Except ε α) := fun x y =>
  match x, y with
  | .ok a, .ok b =>
    if h : a = b then .isTrue (congrArg Except.ok h)
    else .isFalse (fun hh => h (Except.ok.inj hh))
  | .ok _, .error _ => .isFalse (fun hh => Except.noConfusion hh)
  | .error _, .ok _ => .isFalse (fun hh => Except.noConfusion hh)
  | .error a, .error b =>
    if h : a = b then .isTrue (congrArg Except.error h)
    else .isFalse (fun hh => h (Except.error.inj hh))

/-- The subsumption relation is reflexive: every set field matches itself. -/
theorem sbb_refl (r : Resources) : r.should_be_blocked_by r = true := by
  simp [Resources.should_be_blocked_by]

/-- A spec blocked before an insert stays blocked after it. -/
theorem blocks_add_mono (S : List Resources) (r x : Resources)
    (h : blocks S x = true) : blocks (_add_to_blocked_resources S r) x = true := by
  unfold _add_to_blocked_resources
  by_cases hc : S.any (fun r' => r.should_be_blocked_by r') = true
  · simpa [hc]
  · simp only [hc]
    simp only [blocks, List.any_append] at h ⊢
    simp [h]

/-- After inserting `r`, the spec `r` itself is blocked (either it was
already subsumed, or it is now its own entry). -/
theorem blocks_add_self (S : List Resources) (r : Resources) :
    blocks (_add_to_blocked_resources S r) r = true := by
  unfold _add_to_blocked_resources blocks
  by_cases hc : S.any (fun r' => r.should_be_blocked_by r') = true
  · rw [if_pos hc]
    exact hc
  · rw [if_neg hc]
    simp [List.any_append, sbb_refl]

/-- Folding inserts over a zone list never unblocks a spec. -/
theorem blocks_foldl_add_mono (f : String → Resources) (zs : List String)
    (S : List Resources) (x : Resources) (h : blocks S x = true) :
    blocks (zs.foldl (fun b z => _add_to_blocked_resources b (f z)) S) x = true := by
  induction zs generalizing S with
  | nil => simpa using h
  | cons z zs ih => exact ih _ (blocks_add_mono _ _ _ h)

/-- Folding inserts over a zone list blocks the spec of every listed zone. -/
theorem blocks_foldl_add_mem (f : String → Resources) (zs : List String)
    (S : List Resources) (z : String) (hz : z ∈ zs) :
    blocks (zs.foldl (fun b z' => _add_to_blocked_resources b (f z')) S) (f z) = true := by
  induction zs generalizing S with
  | nil => cases hz
  | cons a zs ih =>
    simp only [List.foldl_cons]
    rcases List.mem_cons.mp hz with h | h
    · subst h
      exact blocks_foldl_add_mono _ _ _ _ (blocks_add_self S (f z))
    · exact ih _ h

/-! ### C3: idempotent blocking -/

/-- C3: adding a pattern to the blocked set is idempotent: if `r` is
already subsumed by an entry the insert is skipped, so adding `r` twice
yields the same set as adding it once, and the specs considered blocked
are identical after one add or two. -/
theorem add_to_blocked_resources_idempotent (S : List Resources) (r : Resources) :
    _add_to_blocked_resources (_add_to_blocked_resources S r) r =
      _add_to_blocked_resources S r ∧
    ∀ x, blocks (_add_to_blocked_resources (_add_to_blocked_resources S r) r) x =
      blocks (_add_to_blocked_resources S r) x := by
  have key : _add_to_blocked_resources (_add_to_blocked_resources S r) r =
      _add_to_blocked_resources S r := by
    unfold _add_to_blocked_resources
    by_cases hc : S.any (fun r' => r.should_be_blocked_by r') = true
    · simp [hc]
    · simp [hc, List.any_append, sbb_refl]
  exact ⟨key, fun x => by rw [key]⟩

/-! ### C5: quota short-circuit -/

/-- C5: a definitive zero from the quota pre-check makes `_retry_zones`
raise `ResourcesUnavailableError` with no provisioner invocation at all,
while a quota-check exception leaves the run exactly as if quota were
available. -/
theorem quota_short_circuit
    (tp : Resources) (rn : String) (ps : Option ClusterStatus) (eu : Bool)
    (pz : Option (List String)) (fc : List (Option (List String)))
    (wc : Option (List String) → WriteConfigResult)
    (att : Option (List String) → AttemptResult) (blocked : List Resources) :
    (_retry_zones_run tp rn ps eu (.ok false) pz fc wc att blocked =
      ⟨[], blocked, .raisedRUE false⟩) ∧
    (∀ msg, _retry_zones_run tp rn ps eu (.error msg) pz fc wc att blocked =
      _retry_zones_run tp rn ps eu (.ok true) pz fc wc att blocked) := by
  exact ⟨rfl, fun _ => rfl⟩

/-! ### C6: INIT record persisted before the bulk-provision call -/

/-- C6: in every loop-body iteration of `_retry_zones` on the SKYPILOT
path, whenever `provisioner.bulk_provision` is issued, the INIT-status
handle persist (`add_or_update_cluster(..., ready=False)`) occurs strictly
earlier in the trace. -/
theorem handle_persisted_before_bulk_provision
    (write : WriteConfigResult) (hashMatches dryrun : Bool) (prov : BulkProvisionOutcome)
    (h : Event.bulkProvision ∈ attemptTrace write hashMatches dryrun prov) :
    (attemptTrace write hashMatches dryrun prov).indexOf Event.persistHandleInit <
      (attemptTrace write hashMatches dryrun prov).indexOf Event.bulkProvision := by
  revert h
  cases write <;> cases hashMatches <;> cases dryrun <;> cases prov <;> decide

/-- Witness for C6 at a concrete successful attempt. -/
theorem handle_persisted_before_bulk_provision_witness :
    Event.bulkProvision ∈ attemptTrace .ok false false .ok ∧
    (attemptTrace .ok false false .ok).indexOf Event.persistHandleInit <
      (attemptTrace .ok false false .ok).indexOf Event.bulkProvision :=
  ⟨by decide, handle_persisted_before_bulk_provision .ok false false .ok (by decide)⟩

/-! ### C1: blocked zones are filtered out before the provisioner runs -/

/-- C1: in the `_retry_zones` inner loop every zone subsumed by an entry
of the blocked set is removed from the candidate list before the
provisioner is called; a candidate whose zones are all blocked is skipped
without any cloud call; and in the concrete {zA, zB, zC} scenario with zA
and zB pre-blocked the provisioner is invoked exactly once, for zC only. -/
theorem blocked_zones_never_reattempted :
    (∀ (blocked : List Resources) (tp : Resources) (rn z : String) (zones : List String),
      blocks blocked (tp.copy (some (some rn)) (some (some z))) = true →
      z ∉ filterBlockedZones blocked tp rn zones) ∧
    (∀ (tp : Resources) (rn : String)
        (wc : Option (List String) → WriteConfigResult)
        (att : Option (List String) → AttemptResult)
        (blocked : List Resources) (zones : List String)
        (rest : List (Option (List String))),
      (∀ z ∈ zones, blocks blocked (tp.copy (some (some rn)) (some (some z))) = true) →
      retryZonesLoop tp rn wc att blocked (some zones :: rest) =
        retryZonesLoop tp rn wc att blocked rest) ∧
    (_retry_zones_run ⟨some "cloudx", some "r1", Option.none⟩ "r1" Option.none false
        (.ok true) Option.none [some ["zA", "zB", "zC"]]
        (fun _ => .ok)
        (fun inv => if inv = some ["zC"] then ⟨.CLUSTER_READY, "", ""⟩
          else ⟨.HEAD_FAILED, "out", "err"⟩)
        [⟨some "cloudx", some "r1", some "zA"⟩, ⟨some "cloudx", some "r1", some "zB"⟩] =
      ⟨[some ["zC"]],
        [⟨some "cloudx", some "r1", some "zA"⟩, ⟨some "cloudx", some "r1", some "zB"⟩],
        .success⟩) := by
  refine ⟨?_, ?_, by decide⟩
  · intro blocked tp rn z zones hblocked hin
    rcases List.mem_filter.mp hin with ⟨_, hp⟩
    rw [hblocked] at hp
    simp at hp
  · intro tp rn wc att blocked zones rest hall
    have hfil : filterBlockedZones blocked tp rn zones = [] := by
      apply List.filter_eq_nil_iff.mpr
      intro z hz
      simp [hall z hz]
    simp [retryZonesLoop, candidateInvocation, hfil]

/-- Witness for C1 at concrete inputs. -/
theorem blocked_zones_never_reattempted_witness :
    ("zA" ∉ filterBlockedZones [⟨some "cloudx", some "r1", some "zA"⟩]
        ⟨some "cloudx", some "r1", Option.none⟩ "r1" ["zA", "zC"]) ∧
    (retryZonesLoop ⟨some "cloudx", some "r1", Option.none⟩ "r1" (fun _ => .ok)
        (fun _ => ⟨.HEAD_FAILED, "out", "err"⟩)
        [⟨some "cloudx", some "r1", some "zA"⟩] [some ["zA"]] =
      retryZonesLoop ⟨some "cloudx", some "r1", Option.none⟩ "r1" (fun _ => .ok)
        (fun _ => ⟨.HEAD_FAILED, "out", "err"⟩)
        [⟨some "cloudx", some "r1", some "zA"⟩] []) :=
  ⟨blocked_zones_never_reattempted.1 _ _ _ _ _ (by decide),
    blocked_zones_never_reattempted.2.1 _ _ _ _ _ _ _ (by decide)⟩

/-! ### C2: existing-cluster relaunch failure semantics -/

/-- C2: when relaunching an existing cluster (`prev_cluster_status` set)
whose single fixed-region attempt fails without raising on its own, the
engine raises `ResourcesUnavailableError` with `no_failover = True` if the
cluster was ever UP, and — for a previously-INIT, never-up cluster — a
retryable error with `no_failover = False`. -/
theorem existing_cluster_relaunch_failure
    (tp : Resources) (rn : String) (st : ClusterStatus) (pz : Option (List String))
    (fc : List (Option (List String)))
    (wc : Option (List String) → WriteConfigResult)
    (att : Option (List String) → AttemptResult) (blocked : List Resources)
    (hfail : (retryZonesLoop tp rn wc att blocked [pz]).2.2 = none) :
    ((_retry_zones_run tp rn (some st) true (.ok true) pz fc wc att blocked).outcome =
      .raisedRUE true) ∧
    (st = .INIT →
      (_retry_zones_run tp rn (some st) false (.ok true) pz fc wc att blocked).outcome =
        .raisedRUE false) := by
  constructor
  · unfold _retry_zones_run
    simp [hfail]
  · intro hst
    subst hst
    unfold _retry_zones_run
    simp [hfail]

/-- Witness for C2: an ibm cluster previously INIT, whose single gang-failed
relaunch attempt triggers each branch. -/
theorem existing_cluster_relaunch_failure_witness :
    ((_retry_zones_run ⟨some "ibm", some "r1", Option.none⟩ "r1" (some .INIT) true (.ok true)
        (some ["z1"]) [] (fun _ => .ok) (fun _ => ⟨.GANG_FAILED, "", ""⟩) []).outcome =
      .raisedRUE true) ∧
    ((_retry_zones_run ⟨some "ibm", some "r1", Option.none⟩ "r1" (some .INIT) false (.ok true)
        (some ["z1"]) [] (fun _ => .ok) (fun _ => ⟨.GANG_FAILED, "", ""⟩) []).outcome =
      .raisedRUE false) :=
  let h := existing_cluster_relaunch_failure ⟨some "ibm", some "r1", Option.none⟩ "r1" .INIT
    (some ["z1"]) [] (fun _ => .ok) (fun _ => ⟨.GANG_FAILED, "", ""⟩) [] (by decide)
  ⟨h.1, h.2 rfl⟩

/-! ### C4: gang-scheduling failure blocklisting -/

/-- C4 counterexample: on the GANG_FAILED path (`stdout = stderr = None`)
the V1 classifier DOES add the attempted zone to the blocked set: with an
empty set and attempted zone zA the call returns the set holding exactly
the zone's pattern, and that pattern blocks the zone's spec — refuting
"the attempted zone is not added". -/
theorem gang_failed_zone_blocked_counterexample :
    FailoverCloudErrorHandlerV1.update_blocklist_on_error []
        ⟨some "ibm", some "r1", Option.none⟩ "r1" (some ["zA"]) Option.none Option.none =
      .ok ([⟨some "ibm", some "r1", some "zA"⟩], false) ∧
    blocks [⟨some "ibm", some "r1", some "zA"⟩] ⟨some "ibm", some "r1", some "zA"⟩ = true := by
  decide

/-- C4 amended: on a GANG_FAILED outcome the classifier is invoked with
`stdout = stderr = None` and adds every attempted zone to the blocked set,
reporting `definitely_no_nodes_launched = False` (the head node is up);
the attempt still terminates as a failure. -/
theorem gang_failed_blocklisting_amended :
    (∀ (S : List Resources) (lr : Resources) (rn : String) (zs : List String),
      lr.region = some rn →
      FailoverCloudErrorHandlerV1.update_blocklist_on_error S lr rn (some zs)
          Option.none Option.none =
        .ok (zs.foldl (fun b z => _add_to_blocked_resources b
          (lr.copy Option.none (some (some z)))) S, false) ∧
      ∀ z ∈ zs,
        blocks (zs.foldl (fun b z' => _add_to_blocked_resources b
          (lr.copy Option.none (some (some z')))) S) (lr.copy Option.none (some (some z))) =
          true) ∧
    ((_retry_zones_run ⟨some "ibm", some "r1", Option.none⟩ "r1" Option.none false (.ok true)
        Option.none [some ["zA"]] (fun _ => .ok)
        (fun _ => ⟨.GANG_FAILED, "", ""⟩) []).outcome = .raisedRUE false) := by
  refine ⟨?_, by decide⟩
  intro S lr rn zs h
  constructor
  · simp [FailoverCloudErrorHandlerV1.update_blocklist_on_error, h]
  · intro z hz
    exact blocks_foldl_add_mem (fun z' => lr.copy Option.none (some (some z'))) zs S z hz

/-- Witness for C4's amended theorem at a concrete GANG_FAILED call. -/
theorem gang_failed_blocklisting_amended_witness :
    FailoverCloudErrorHandlerV1.update_blocklist_on_error []
        ⟨some "ibm", some "r1", Option.none⟩ "r1" (some ["zA", "zB"])
        Option.none Option.none =
      .ok (["zA", "zB"].foldl (fun b z => _add_to_blocked_resources b
        (Resources.copy ⟨some "ibm", some "r1", Option.none⟩ Option.none (some (some z)))) [],
        false) ∧
    ∀ z ∈ ["zA", "zB"],
      blocks (["zA", "zB"].foldl (fun b z' => _add_to_blocked_resources b
        (Resources.copy ⟨some "ibm", some "r1", Option.none⟩ Option.none (some (some z')))) [])
        (Resources.copy ⟨some "ibm", some "r1", Option.none⟩ Option.none (some (some z))) =
        true :=
  gang_failed_blocklisting_amended.1 [] ⟨some "ibm", some "r1", Option.none⟩ "r1"
    ["zA", "zB"] rfl

/-! ### C7: GCP structured-error scope classification -/

/-- The string error codes the GCP handler's branch chain recognises. -/
def gcpKnownStringCodes : List String :=
  ["QUOTA_EXCEEDED", "quotaExceeded", "ZONE_RESOURCE_POOL_EXHAUSTED",
   "ZONE_RESOURCE_POOL_EXHAUSTED_WITH_DETAILS", "UNSUPPORTED_OPERATION",
   "insufficientCapacity", "RESOURCE_NOT_READY", "RESOURCE_OPERATION_RATE_EXCEEDED",
   "RESOURCE_NOT_FOUND", "VPC_NOT_FOUND", "SUBNET_NOT_FOUND_FOR_VPC",
   "type.googleapis.com/google.rpc.QuotaFailure", "IAM_PERMISSION_DENIED"]

/-- C7: the structured GCP classifier maps scopes correctly.
(a) `ZONE_RESOURCE_POOL_EXHAUSTED` for the single attempted zone blocks
exactly that zone's spec, leaving other zones of the region and other
regions of the cloud eligible; (b) the `GPUS_ALL_REGIONS` global quota and
`IAM_PERMISSION_DENIED` block the whole cloud (`region = zone = None`);
(c) any unrecognised string code falls to the conservative default and
blocks only the attempted zone. -/
theorem gcp_error_scope_classification :
    (∀ (S : List Resources) (c rn z m : String),
      FailoverCloudErrorHandlerV2._gcp_handler S ⟨some c, some rn, Option.none⟩ rn (some [z])
          (.provisionerError "err" [⟨.s "ZONE_RESOURCE_POOL_EXHAUSTED", m⟩]) =
        .ok (_add_to_blocked_resources S ⟨some c, some rn, some z⟩) ∧
      (∀ z', z' ≠ z →
        blocks (_add_to_blocked_resources [] ⟨some c, some rn, some z⟩)
          ⟨some c, some rn, some z'⟩ = false) ∧
      (∀ rn' z', rn' ≠ rn →
        blocks (_add_to_blocked_resources [] ⟨some c, some rn, some z⟩)
          ⟨some c, some rn', some z'⟩ = false)) ∧
    (∀ (S : List Resources) (lr : Resources) (rn z m : String),
      strContains m "'GPUS_ALL_REGIONS' exceeded" = true →
      FailoverCloudErrorHandlerV2._gcp_handler S lr rn (some [z])
          (.provisionerError "err" [⟨.s "QUOTA_EXCEEDED", m⟩]) =
        .ok (_add_to_blocked_resources S
          (lr.copy (some Option.none) (some Option.none)))) ∧
    (∀ (S : List Resources) (lr : Resources) (rn z m : String),
      strContains m "Requested disk size cannot be smaller than the image size" = false →
      FailoverCloudErrorHandlerV2._gcp_handler S lr rn (some [z])
          (.provisionerError "err" [⟨.s "IAM_PERMISSION_DENIED", m⟩]) =
        .ok (_add_to_blocked_resources S
          (lr.copy (some Option.none) (some Option.none)))) ∧
    (∀ (S : List Resources) (lr : Resources) (rn z c0 m : String),
      c0 ∉ gcpKnownStringCodes →
      strContains m "Requested disk size cannot be smaller than the image size" = false →
      strContains m "Policy update access denied." = false →
      strContains m "is not found or access is unauthorized" = false →
      FailoverCloudErrorHandlerV2._gcp_handler S lr rn (some [z])
          (.provisionerError "err" [⟨.s c0, m⟩]) =
        .ok (_add_to_blocked_resources S (lr.copy Option.none (some (some z))))) := by
  refine ⟨?_, ?_, ?_, ?_⟩
  · intro S c rn z m
    refine ⟨?_, ?_, ?_⟩
    · simp [FailoverCloudErrorHandlerV2._gcp_handler, FailoverCloudErrorHandlerV2.gcpBlockOne,
        FailoverCloudErrorHandlerV2.gcpScopePattern,
        Resources.copy]
    · intro z' hz'
      simp [blocks, _add_to_blocked_resources, Resources.should_be_blocked_by,
        Resources.copy, hz', Ne.symm hz']
    · intro rn' z' hrn'
      simp [blocks, _add_to_blocked_resources, Resources.should_be_blocked_by,
        Resources.copy, hrn', Ne.symm hrn']
  · intro S lr rn z m hm
    simp [FailoverCloudErrorHandlerV2._gcp_handler, FailoverCloudErrorHandlerV2.gcpBlockOne,
        FailoverCloudErrorHandlerV2.gcpScopePattern, hm]
  · intro S lr rn z m hm
    simp [FailoverCloudErrorHandlerV2._gcp_handler, FailoverCloudErrorHandlerV2.gcpBlockOne,
        FailoverCloudErrorHandlerV2.gcpScopePattern, hm]
  · intro S lr rn z c0 m hc hm1 hm2 hm3
    simp only [gcpKnownStringCodes, List.mem_cons, List.mem_singleton, not_or] at hc
    obtain ⟨h1, h2, h3, h4, h5, h6, h7, h8, h9, h10, h11, h12, h13, -⟩ := hc
    simp [FailoverCloudErrorHandlerV2._gcp_handler, FailoverCloudErrorHandlerV2.gcpBlockOne,
        FailoverCloudErrorHandlerV2.gcpScopePattern,
      h1, h2, h3, h4, h5, h6, h7, h8, h9, h10, h11, h12, h13, hm1, hm2, hm3]

/-- Witness for C7 at concrete errors. -/
theorem gcp_error_scope_classification_witness :
    (FailoverCloudErrorHandlerV2._gcp_handler [] ⟨some "gcp", some "us-central1", Option.none⟩
        "us-central1" (some ["us-a"])
        (.provisionerError "err" [⟨.s "ZONE_RESOURCE_POOL_EXHAUSTED", "exhausted"⟩]) =
      .ok (_add_to_blocked_resources []
        ⟨some "gcp", some "us-central1", some "us-a"⟩) ∧
      blocks (_add_to_blocked_resources [] ⟨some "gcp", some "us-central1", some "us-a"⟩)
        ⟨some "gcp", some "us-central1", some "us-b"⟩ = false ∧
      blocks (_add_to_blocked_resources [] ⟨some "gcp", some "us-central1", some "us-a"⟩)
        ⟨some "gcp", some "us-west1", some "us-w"⟩ = false) ∧
    (FailoverCloudErrorHandlerV2._gcp_handler [] ⟨some "gcp", some "us-central1", Option.none⟩
        "us-central1" (some ["us-a"])
        (.provisionerError "err"
          [⟨.s "QUOTA_EXCEEDED", "Quota 'GPUS_ALL_REGIONS' exceeded. Limit: 1.0 globally."⟩]) =
      .ok (_add_to_blocked_resources []
        (Resources.copy ⟨some "gcp", some "us-central1", Option.none⟩
          (some Option.none) (some Option.none)))) ∧
    (FailoverCloudErrorHandlerV2._gcp_handler [] ⟨some "gcp", some "us-central1", Option.none⟩
        "us-central1" (some ["us-a"])
        (.provisionerError "err" [⟨.s "IAM_PERMISSION_DENIED", "permission denied"⟩]) =
      .ok (_add_to_blocked_resources []
        (Resources.copy ⟨some "gcp", some "us-central1", Option.none⟩
          (some Option.none) (some Option.none)))) ∧
    (FailoverCloudErrorHandlerV2._gcp_handler [] ⟨some "gcp", some "us-central1", Option.none⟩
        "us-central1" (some ["us-a"])
        (.provisionerError "err" [⟨.s "TOTALLY_UNKNOWN_CODE", "boom"⟩]) =
      .ok (_add_to_blocked_resources []
        (Resources.copy ⟨some "gcp", some "us-central1", Option.none⟩
          Option.none (some (some "us-a"))))) :=
  have ha := gcp_error_scope_classification.1 [] "gcp" "us-central1" "us-a" "exhausted"
  ⟨⟨ha.1, ha.2.1 "us-b" (by decide), ha.2.2 "us-west1" "us-w" (by decide)⟩,
    gcp_error_scope_classification.2.1 [] ⟨some "gcp", some "us-central1", Option.none⟩
      "us-central1" "us-a" "Quota 'GPUS_ALL_REGIONS' exceeded. Limit: 1.0 globally."
      (by decide),
    gcp_error_scope_classification.2.2.1 [] ⟨some "gcp", some "us-central1", Option.none⟩
      "us-central1" "us-a" "permission denied" (by decide),
    gcp_error_scope_classification.2.2.2 [] ⟨some "gcp", some "us-central1", Option.none⟩
      "us-central1" "us-a" "TOTALLY_UNKNOWN_CODE" "boom" (by decide) (by decide)
      (by decide) (by decide)⟩

/-! ### C8: whether the classifiers can raise -/

/-- C8 counterexample: the V1 text classifier DOES raise: a cloud with no
V1 handler (aws) makes the `getattr` dispatch fail with an AttributeError,
and even the handled cloud (ibm) raises a RuntimeError when no recognised
error line is found — refuting "a classifier call in either variant only
mutates the blocked-resource set and returns". -/
theorem classifier_never_raises_counterexample :
    FailoverCloudErrorHandlerV1.update_blocklist_on_error []
        ⟨some "aws", some "r1", Option.none⟩ "r1" (some ["z1"])
        (some "some provision output") (some "") =
      .error "AttributeError: FailoverCloudErrorHandlerV1 has no handler for this cloud" ∧
    FailoverCloudErrorHandlerV1.update_blocklist_on_error []
        ⟨some "ibm", some "r1", Option.none⟩ "r1" (some ["z1"])
        (some "all fine here") (some "") =
      .error "RuntimeError: Errors occurred during provision; check logs above." := by
  decide

/-- C8 amended: the V2 structured classifier only mutates the blocked set
and returns: a cloud with no specific handler falls back to the generic
default rule, any non-GCP cloud never yields an error, and GCP returns
normally whenever its single-attempted-zone invariant (maintained by its
call site) holds.  The V1 text classifier, by contrast, can raise. -/
theorem v2_classifier_never_raises_amended :
    (∀ (cat : List String) (S : List Resources) (lr : Resources) (rn : String)
        (zones : Option (List String)) (err : PyErr) (c : String),
      lr.cloud = some c → c ∉ ["azure", "gcp", "lambda", "aws", "scp"] →
      FailoverCloudErrorHandlerV2.update_blocklist_on_error cat S lr rn zones err =
        .ok (FailoverCloudErrorHandlerV2._default_handler S lr zones)) ∧
    (∀ (cat : List String) (S : List Resources) (lr : Resources) (rn : String)
        (zones : Option (List String)) (err : PyErr),
      lr.cloud ≠ some "gcp" →
      ∃ S', FailoverCloudErrorHandlerV2.update_blocklist_on_error cat S lr rn zones err =
        .ok S') ∧
    (∀ (cat : List String) (S : List Resources) (lr : Resources) (rn z : String)
        (err : PyErr),
      ∃ S', FailoverCloudErrorHandlerV2.update_blocklist_on_error cat S lr rn (some [z]) err =
        .ok S') := by
  refine ⟨?_, ?_, ?_⟩
  · intro cat S lr rn zones err c h hc
    simp only [List.mem_cons, List.mem_singleton, not_or] at hc
    obtain ⟨h1, h2, h3, h4, h5⟩ := hc
    simp only [FailoverCloudErrorHandlerV2.update_blocklist_on_error, h]
    split <;> simp_all
  · intro cat S lr rn zones err hgcp
    simp only [FailoverCloudErrorHandlerV2.update_blocklist_on_error]
    split <;> first
      | exact ⟨_, rfl⟩
      | simp_all
  · intro cat S lr rn z err
    simp only [FailoverCloudErrorHandlerV2.update_blocklist_on_error]
    split <;> first
      | exact ⟨_, rfl⟩
      | (simp only [FailoverCloudErrorHandlerV2._gcp_handler]
         cases err <;> exact ⟨_, rfl⟩)

/-- Witness for C8's amended theorem at concrete calls. -/
theorem v2_classifier_never_raises_amended_witness :
    (FailoverCloudErrorHandlerV2.update_blocklist_on_error [] []
        ⟨some "kubernetes", some "ctx", Option.none⟩ "ctx" (some ["z1"])
        (.generic "pod pending") =
      .ok (FailoverCloudErrorHandlerV2._default_handler []
        ⟨some "kubernetes", some "ctx", Option.none⟩ (some ["z1"]))) ∧
    (∃ S', FailoverCloudErrorHandlerV2.update_blocklist_on_error [] []
        ⟨some "azure", some "eastus", Option.none⟩ "eastus" Option.none
        (.generic "ClientAuthenticationError") = .ok S') ∧
    (∃ S', FailoverCloudErrorHandlerV2.update_blocklist_on_error [] []
        ⟨some "gcp", some "us-central1", Option.none⟩ "us-central1" (some ["us-a"])
        (.generic "boom") = .ok S') :=
  ⟨v2_classifier_never_raises_amended.1 [] [] ⟨some "kubernetes", some "ctx", Option.none⟩
      "ctx" (some ["z1"]) (.generic "pod pending") "kubernetes" rfl (by decide),
    v2_classifier_never_raises_amended.2.1 [] [] ⟨some "azure", some "eastus", Option.none⟩
      "eastus" Option.none (.generic "ClientAuthenticationError") (by decide),
    v2_classifier_never_raises_amended.2.2 [] [] ⟨some "gcp", some "us-central1", Option.none⟩
      "us-central1" "us-a" (.generic "boom")⟩

/-! ### C9: schema migration of the cluster handle -/

set_option maxHeartbeats 6400000 in
/-- C9: deserialising a handle pickled at any schema version `-1 ≤ N < 10`
succeeds — `__setstate__` applies every migration step whose bound exceeds
`N` in increasing order — and the migrated `__dict__` agrees with a
version-10 `__init__` dict built from equivalent inputs on every field
that is not a newly-introduced default (`cluster_name`, the yaml
reference, node count, launched resources, the schema version; the stable
IP cache too once it exists, i.e. for `N ≥ 3`).  The yaml file is assumed
present and the cluster non-Kubernetes (the version-9/10 steps would
otherwise consult the environment). -/
theorem setstate_migration_roundtrip
    (ver : Int) (c cnoc y : String) (n : Nat) (r : Resources)
    (headIp ipsV portsV docker infoV : PyVal)
    (yamlExists : String → Bool) (k8sContext : String)
    (fIps fInfo : Option PyVal) (fPorts : PyVal)
    (hver0 : -1 ≤ ver) (hver : ver < 10)
    (hyaml : yamlExists y = true) (hk8s : r.cloud ≠ some "kubernetes") :
    exceptIsOk (setstate yamlExists k8sContext fIps fPorts fInfo
      (mkOldState ver c cnoc y n r headIp ipsV portsV docker infoV)) = true ∧
    (∀ k ∈ ["cluster_name", "_cluster_yaml", "launched_nodes", "launched_resources",
        "_version"],
      okGet (setstate yamlExists k8sContext fIps fPorts fInfo
        (mkOldState ver c cnoc y n r headIp ipsV portsV docker infoV)) k =
      dictGet? (initDict c cnoc (some y) n r ipsV portsV infoV) k) ∧
    (3 ≤ ver →
      okGet (setstate yamlExists k8sContext fIps fPorts fInfo
        (mkOldState ver c cnoc y n r headIp ipsV portsV docker infoV))
        "stable_internal_external_ips" = some ipsV) := by
  have hv : ver = -1 ∨ ver = 0 ∨ ver = 1 ∨ ver = 2 ∨ ver = 3 ∨ ver = 4 ∨ ver = 5 ∨
      ver = 6 ∨ ver = 7 ∨ ver = 8 ∨ ver = 9 := by omega
  rcases fIps with _ | vIps <;> rcases fInfo with _ | vInfo <;>
    by_cases hh : headIp = PyVal.none <;>
    rcases hv with h' | h' | h' | h' | h' | h' | h' | h' | h' | h' | h' <;> subst h' <;>
    simp [setstate, setstateStep2, setstateStep6, setstateStep9, setstateStep10,
      mkOldState, initDict, dictGet?, dictSet, dictRemove, dictUpdate,
      exceptIsOk, okGet, hyaml, hk8s, hh, List.forall_mem_cons]

/-- Witness for C9 at version 5 with concrete inputs. -/
theorem setstate_migration_roundtrip_witness :
    exceptIsOk (setstate (fun _ => true) "ctx" Option.none (PyVal.ports [22]) Option.none
      (mkOldState 5 "mycluster" "mycluster-abc12" "sky-cluster.yml" 2
        ⟨some "gcp", some "us-central1", some "us-a"⟩ PyVal.none
        (PyVal.ips [("10.0.0.1", "34.1.2.3")]) (PyVal.ports [22]) PyVal.none
        (PyVal.info 0))) = true ∧
    (∀ k ∈ ["cluster_name", "_cluster_yaml", "launched_nodes", "launched_resources",
        "_version"],
      okGet (setstate (fun _ => true) "ctx" Option.none (PyVal.ports [22]) Option.none
        (mkOldState 5 "mycluster" "mycluster-abc12" "sky-cluster.yml" 2
          ⟨some "gcp", some "us-central1", some "us-a"⟩ PyVal.none
          (PyVal.ips [("10.0.0.1", "34.1.2.3")]) (PyVal.ports [22]) PyVal.none
          (PyVal.info 0))) k =
      dictGet? (initDict "mycluster" "mycluster-abc12" (some "sky-cluster.yml") 2
        ⟨some "gcp", some "us-central1", some "us-a"⟩
        (PyVal.ips [("10.0.0.1", "34.1.2.3")]) (PyVal.ports [22]) (PyVal.info 0)) k) ∧
    (3 ≤ (5 : Int) →
      okGet (setstate (fun _ => true) "ctx" Option.none (PyVal.ports [22]) Option.none
        (mkOldState 5 "mycluster" "mycluster-abc12" "sky-cluster.yml" 2
          ⟨some "gcp", some "us-central1", some "us-a"⟩ PyVal.none
          (PyVal.ips [("10.0.0.1", "34.1.2.3")]) (PyVal.ports [22]) PyVal.none
          (PyVal.info 0))) "stable_internal_external_ips" =
        some (PyVal.ips [("10.0.0.1", "34.1.2.3")])) :=
  setstate_migration_roundtrip 5 "mycluster" "mycluster-abc12" "sky-cluster.yml" 2
    ⟨some "gcp", some "us-central1", some "us-a"⟩ PyVal.none
    (PyVal.ips [("10.0.0.1", "34.1.2.3")]) (PyVal.ports [22]) PyVal.none (PyVal.info 0)
    (fun _ => true) "ctx" Option.none Option.none (PyVal.ports [22])
    (by decide) (by decide) rfl (by decide)

/-! ### C10: monotonicity of the blocked set -/

/-- A fold whose step never unblocks a spec never unblocks a spec. -/
theorem blocks_foldl_mono {β : Type} (g : List Resources → β → List Resources)
    (hg : ∀ b e x, blocks b x = true → blocks (g b e) x = true)
    (l : List β) (S : List Resources) (x : Resources) (h : blocks S x = true) :
    blocks (l.foldl g S) x = true := by
  induction l generalizing S with
  | nil => exact h
  | cons a l ih => exact ih _ (hg _ _ _ h)

/-- Every branch of the GCP code table only inserts (or leaves the set). -/
theorem gcpBlockOne_mono (b : List Resources) (lr : Resources) (rn zn : String)
    (e : StructuredError) (x : Resources) (h : blocks b x = true) :
    blocks (FailoverCloudErrorHandlerV2.gcpBlockOne b lr rn zn e) x = true := by
  unfold FailoverCloudErrorHandlerV2.gcpBlockOne
  rcases hs : FailoverCloudErrorHandlerV2.gcpScopePattern lr rn zn e with _ | r
  · exact h
  · exact blocks_add_mono _ _ _ h

/-- The V2 default handler only inserts. -/
theorem default_handler_mono (S : List Resources) (lr : Resources)
    (zones : Option (List String)) (x : Resources) (h : blocks S x = true) :
    blocks (FailoverCloudErrorHandlerV2._default_handler S lr zones) x = true := by
  unfold FailoverCloudErrorHandlerV2._default_handler
  rcases zones with _ | zs
  · exact blocks_add_mono _ _ _ h
  · exact blocks_foldl_mono _ (fun b e y hy => blocks_add_mono _ _ _ hy) _ _ _ h

/-- The V2 classifier never removes a blocked spec. -/
theorem v2_update_mono (cat : List String) (S : List Resources) (lr : Resources)
    (rn : String) (zones : Option (List String)) (err : PyErr) (b' : List Resources)
    (hok : FailoverCloudErrorHandlerV2.update_blocklist_on_error cat S lr rn zones err =
      .ok b')
    (x : Resources) (h : blocks S x = true) : blocks b' x = true := by
  unfold FailoverCloudErrorHandlerV2.update_blocklist_on_error at hok
  split at hok
  · -- azure
    cases hok
    exact blocks_add_mono _ _ _ h
  · -- gcp
    unfold FailoverCloudErrorHandlerV2._gcp_handler at hok
    split at hok
    · split at hok
      · cases hok
        exact blocks_foldl_mono _ (fun b e y hy => gcpBlockOne_mono _ _ _ _ _ _ hy) _ _ _ h
      · cases hok
        exact blocks_add_mono _ _ _ h
    · cases hok
  · -- lambda
    cases hok
    unfold FailoverCloudErrorHandlerV2._lambda_handler
    dsimp only
    split
    · refine blocks_foldl_mono _ (fun b e y hy => ?_) _ _ _ h
      split
      · exact hy
      · exact blocks_add_mono _ _ _ hy
    · exact default_handler_mono _ _ _ _ h
  · -- aws
    cases hok
    unfold FailoverCloudErrorHandlerV2._aws_handler
    split
    · exact blocks_add_mono _ _ _ h
    · exact default_handler_mono _ _ _ _ h
  · -- scp
    cases hok
    unfold FailoverCloudErrorHandlerV2._scp_handler
    split
    · exact blocks_add_mono _ _ _ h
    · exact default_handler_mono _ _ _ _ h
  · -- default
    cases hok
    exact default_handler_mono _ _ _ _ h

/-- The V1 ibm handler only inserts when it returns at all. -/
theorem ibm_handler_mono (S : List Resources) (lr : Resources)
    (zones : Option (List String)) (out errout : String) (b' : List Resources)
    (hok : FailoverCloudErrorHandlerV1._ibm_handler S lr zones out errout = .ok b')
    (x : Resources) (h : blocks S x = true) : blocks b' x = true := by
  unfold FailoverCloudErrorHandlerV1._ibm_handler at hok
  split at hok
  · cases hok
  · rcases zones with _ | zs
    · cases hok
    · cases hok
      exact blocks_foldl_mono _ (fun b e y hy => blocks_add_mono _ _ _ hy) _ _ _ h

/-- The V1 classifier never removes a blocked spec when it returns. -/
theorem v1_update_mono (S : List Resources) (lr : Resources) (rn : String)
    (zones : Option (List String)) (o e : Option String) (b' : List Resources)
    (flag : Bool)
    (hok : FailoverCloudErrorHandlerV1.update_blocklist_on_error S lr rn zones o e =
      .ok (b', flag))
    (x : Resources) (h : blocks S x = true) : blocks b' x = true := by
  rcases o with _ | out <;> rcases e with _ | errout
  all_goals
    simp only [FailoverCloudErrorHandlerV1.update_blocklist_on_error] at hok
  · -- stdout = stderr = None: the gang-scheduling path
    split at hok
    · cases hok
    · rcases zones with _ | zs
      · cases hok
        exact h
      · cases hok
        exact blocks_foldl_mono _ (fun b e y hy => blocks_add_mono _ _ _ hy) _ _ _ h
  · split at hok
    · cases hok
    · cases hok
  · split at hok
    · cases hok
    · cases hok
  · split at hok
    · cases hok
    · split at hok
      · cases hok
      · rcases hibm : FailoverCloudErrorHandlerV1._ibm_handler S lr zones out errout
            with m | b''
        · rw [hibm] at hok
          cases hok
        · rw [hibm] at hok
          cases hok
          exact ibm_handler_mono _ _ _ _ _ _ hibm _ h

/-- The whole retry loop only grows the blocked set. -/
theorem retryZonesLoop_blocked_mono (tp : Resources) (rn : String)
    (wc : Option (List String) → WriteConfigResult)
    (att : Option (List String) → AttemptResult)
    (cands : List (Option (List String))) (S : List Resources) (x : Resources)
    (h : blocks S x = true) :
    blocks (retryZonesLoop tp rn wc att S cands).2.1 x = true := by
  induction cands generalizing S with
  | nil => exact h
  | cons c rest ih =>
    simp only [retryZonesLoop]
    rcases hci : candidateInvocation S tp rn c with _ | inv
    · exact ih _ h
    · dsimp only
      rcases hwc : wc inv with _ | _ | _ | _
      all_goals try dsimp only
      · -- write_cluster_config succeeded
        split
        · exact h
        · split
          · exact h
          · next b2 fl hcls =>
              refine ih _ ?_
              by_cases hs : (att inv).status = GangSchedulingStatus.HEAD_FAILED
              · rw [if_pos hs] at hcls
                exact v1_update_mono _ _ _ _ _ _ _ _ hcls _ h
              · rw [if_neg hs] at hcls
                exact v1_update_mono _ _ _ _ _ _ _ _ hcls _ h
      · exact ih _ h
      · exact blocks_add_mono _ _ _ h
      · exact blocks_add_mono _ _ _ h

/-- Monotonicity over an arbitrary step sequence (part 1 of C10). -/
theorem blocked_set_monotone_steps (steps : List BlockStep) (S : List Resources)
    (x : Resources) (h : blocks S x = true) :
    blocks (applyBlockSteps S steps) x = true := by
  induction steps generalizing S with
  | nil => exact h
  | cons s steps ih =>
    refine ih _ ?_
    rcases s with r | ⟨lr, rn, zs, o, e⟩ | ⟨cat, lr, rn, zs, err⟩
    · exact blocks_add_mono _ _ _ h
    · simp only [applyBlockStep]
      rcases hcl : FailoverCloudErrorHandlerV1.update_blocklist_on_error S lr rn zs o e
          with m | ⟨b', flag⟩
      · exact h
      · exact v1_update_mono _ _ _ _ _ _ _ _ hcl _ h
    · simp only [applyBlockStep]
      rcases hcl : FailoverCloudErrorHandlerV2.update_blocklist_on_error cat S lr rn zs err
          with m | b'
      · exact h
      · exact v2_update_mono _ _ _ _ _ _ _ hcl _ h

/-- C10: the blocked-resource set is monotone within a session: for every
sequence of classification and retry steps, a spec blocked at some point
stays blocked — neither classifier nor any retry-engine operation
(including a whole `_retry_zones` run) removes entries. -/
theorem blocked_set_monotone :
    (∀ (steps : List BlockStep) (S : List Resources) (x : Resources),
      blocks S x = true → blocks (applyBlockSteps S steps) x = true) ∧
    (∀ (tp : Resources) (rn : String) (ps : Option ClusterStatus) (eu : Bool)
        (q : Except String Bool) (pz : Option (List String))
        (fc : List (Option (List String)))
        (wc : Option (List String) → WriteConfigResult)
        (att : Option (List String) → AttemptResult)
        (S : List Resources) (x : Resources),
      blocks S x = true →
      blocks (_retry_zones_run tp rn ps eu q pz fc wc att S).blockedAfter x = true) := by
  constructor
  · intro steps S x h
    exact blocked_set_monotone_steps steps S x h
  · intro tp rn ps eu q pz fc wc att S x h
    unfold _retry_zones_run
    dsimp only
    split
    · exact h
    · repeat' split
      all_goals exact retryZonesLoop_blocked_mono _ _ _ _ _ _ _ h

/-- Witness for C10 at a concrete session. -/
theorem blocked_set_monotone_witness :
    blocks (applyBlockSteps [⟨some "aws", some "r1", some "z1"⟩]
        [.add ⟨some "aws", some "r1", Option.none⟩,
         .v1 ⟨some "ibm", some "r2", Option.none⟩ "r2" (some ["z9"]) Option.none Option.none,
         .v2 [] ⟨some "gcp", some "us-central1", Option.none⟩ "us-central1" (some ["us-a"])
           (.generic "boom")])
      ⟨some "aws", some "r1", some "z1"⟩ = true ∧
    blocks (_retry_zones_run ⟨some "ibm", some "r1", Option.none⟩ "r1" Option.none false
        (.ok true) Option.none [some ["z9"]] (fun _ => .ok)
        (fun _ => ⟨.GANG_FAILED, "", ""⟩)
        [⟨some "aws", some "r1", some "z1"⟩]).blockedAfter
      ⟨some "aws", some "r1", some "z1"⟩ = true :=
  ⟨blocked_set_monotone.1 _ _ _ (by decide),
    blocked_set_monotone.2 _ _ _ _ _ _ _ _ _ _ _ (by decide)⟩
